import Mathlib

/-!
# Verification of `weather_cli.py`

A shallow embedding of the OpenWeather CLI script (`src/weather_cli.py`).

The script is modelled as pure functions:
* HTTP traffic is a list of `HttpResult` values consumed one per actual
  `requests.get` call (so "no network call" is visible as the response
  stream being left untouched);
* console input is a list of strings consumed by `input()`;
* console output is a list of abstract `Out` events (one per `print`
  statement that the claims talk about);
* the environment is an `Option String` for the single variable
  `OPENWEATHER_API_KEY` (`os.getenv` returns `none` when unset);
* Python exceptions that the script catches become `Except`/sum results;
  exceptions it does NOT catch (`EOFError` from `input()`,
  `AttributeError` from calling `.get` on a non-dict) become an explicit
  `Crash` outcome that aborts the run, exactly as an uncaught Python
  exception kills the process.

JSON response bodies are modelled by `Json` (numbers as `Rat`; a parsed
Python `dict` is an association list looked up on first match, adequate
because parsed JSON objects have unique keys).
-/

/-- A parsed JSON value, as handed back by `resp.json()`. -/
inductive Json where
  | null
  | bool (b : Bool)
  | num (q : Rat)
  | str (s : String)
  | arr (elems : List Json)
  | obj (fields : List (String × Json))

/-- First-match lookup in a parsed JSON object (Python `dict` access). -/
def lookupField : List (String × Json) → String → Option Json
  | [], _ => none
  | (k, v) :: rest, key => if k = key then some v else lookupField rest key

/-- Python `d.get(key)` on a value known to be a dict, as `Option`. -/
def jget (j : Json) (key : String) : Option Json :=
  match j with
  | .obj fields => lookupField fields key
  | _ => none

/-- Python truthiness (`if x:`) of a JSON value: `None`, `False`, `0`,
`""`, `[]`, `{}` are falsy, everything else truthy. -/
def truthy : Json → Bool
  | .null => false
  | .bool b => b
  | .num q => !(q == 0)
  | .str s => !(s == "")
  | .arr [] => false
  | .arr (_ :: _) => true
  | .obj [] => false
  | .obj (_ :: _) => true

/-- Exceptions a Python subscript `x[k]` can raise.  `KeyError` and
`TypeError` are caught by `get_weather`'s `except (KeyError, TypeError)`;
`IndexError` is not. -/
inductive SubsErr where
  | keyError (k : String)
  | typeError
  | indexError

/-- Python `x["key"]`: a dict yields the entry or `KeyError`; strings,
lists and scalars raise `TypeError` for a string subscript. -/
def pySubscriptStr (j : Json) (key : String) : Except SubsErr Json :=
  match j with
  | .obj fields =>
    match lookupField fields key with
    | some v => .ok v
    | none => .error (.keyError key)
  | _ => .error .typeError

/-- Python `x[0]`: lists yield the head or `IndexError`; a string yields
its first character as a 1-character string; dicts raise `KeyError 0`
(parsed-JSON dicts only have string keys); scalars raise `TypeError`. -/
def pyIndex0 (j : Json) : Except SubsErr Json :=
  match j with
  | .arr (x :: _) => .ok x
  | .arr [] => .error .indexError
  | .str s =>
    match s.toList with
    | [] => .error .indexError
    | c :: _ => .ok (.str (String.mk [c]))
  | .obj _ => .error (.keyError "0")
  | _ => .error .typeError

/-- Python `x.get(key, dflt)`: only dicts have `.get`; on anything else
the attribute access raises `AttributeError` (modelled as `.error ()`),
which `get_weather` does NOT catch. -/
def pyGet (j : Json) (key : String) (dflt : Json) : Except Unit Json :=
  match j with
  | .obj fields => .ok ((lookupField fields key).getD dflt)
  | _ => .error ()

/-- The distinct `WeatherError` raise sites of the script, by message. -/
inductive WeatherErr where
  | missingApiKey
  | network (cause : String)
  | cityNotFound (city : Json)
  | apiStatus (status : Nat) (body : String)
  | malformed (info : String)

/-- Outcome of running a piece of the script: a value, a raised
`WeatherError` (caught at flow boundaries), or an exception the script
never catches (uncaught `AttributeError`/`IndexError`). -/
inductive PyResult (α : Type) where
  | ok (a : α)
  | weatherError (e : WeatherErr)
  | uncaught (msg : String)

/-- The simplified dict built by `get_weather`.  Field values are JSON
values: the script copies them out of the response without checking
their types. -/
structure WeatherRecord where
  city : Json
  country : Json
  temp : Json
  feels_like : Json
  description : Json
  humidity : Json
  wind_speed : Json

/-- One `requests.get` outcome: a `RequestException`, or a response with
its status code, raw text and parsed JSON body. -/
inductive HttpResult where
  | failure (cause : String)
  | success (status : Nat) (text : String) (body : Json)

/-- The message tag the script's `except (KeyError, TypeError)` handler
attaches to a caught subscript error (`f"Unexpected API response format: {e}"`). -/
def subsMsg : SubsErr → String
  | .keyError k => "KeyError: " ++ k
  | .typeError => "TypeError"
  | .indexError => "IndexError"

/-- The `weather_desc` computation of `get_weather`:
`weather_list[0]["description"] if weather_list else "N/A"` where
`weather_list = data.get("weather", [])`. -/
def weather_desc_of (data : Json) : Except SubsErr Json :=
  let weather_list := (jget data "weather").getD (.arr [])
  if truthy weather_list then
    match pyIndex0 weather_list with
    | .error e => .error e
    | .ok e0 => pySubscriptStr e0 "description"
  else
    .ok (.str "N/A")

/-- The response-handling part of `get_weather` (everything after the
`requests.get` call), evaluated in source order: 404 check, non-200
check, then the `try` block building the simplified dict.  `KeyError`
and `TypeError` become `WeatherError` (malformed response); an
`AttributeError` from `.get` on a non-dict `sys`/`wind` value, or an
`IndexError`, is uncaught. -/
def fetch (city : Json) (resp : HttpResult) : PyResult WeatherRecord :=
  match resp with
  | .failure cause => .weatherError (.network cause)
  | .success status text data =>
    if status == 404 then .weatherError (.cityNotFound city)
    else if !(status == 200) then .weatherError (.apiStatus status text)
    else
      match pySubscriptStr data "main" with
      | .error (.indexError) => .uncaught "IndexError"
      | .error e => .weatherError (.malformed (subsMsg e))
      | .ok main =>
        match weather_desc_of data with
        | .error (.indexError) => .uncaught "IndexError"
        | .error e => .weatherError (.malformed (subsMsg e))
        | .ok weather_desc =>
          -- data is a dict here (the subscript data["main"] succeeded),
          -- so data.get(...) cannot raise
          let wind := (jget data "wind").getD (.obj [])
          let sys_info := (jget data "sys").getD (.obj [])
          let city_val := (jget data "name").getD city
          match pyGet sys_info "country" (.str "") with
          | .error _ => .uncaught "AttributeError: get"
          | .ok country =>
            match pySubscriptStr main "temp" with
            | .error (.indexError) => .uncaught "IndexError"
            | .error e => .weatherError (.malformed (subsMsg e))
            | .ok temp =>
              match pySubscriptStr main "feels_like" with
              | .error (.indexError) => .uncaught "IndexError"
              | .error e => .weatherError (.malformed (subsMsg e))
              | .ok feels_like =>
                match pySubscriptStr main "humidity" with
                | .error (.indexError) => .uncaught "IndexError"
                | .error e => .weatherError (.malformed (subsMsg e))
                | .ok humidity =>
                  match pyGet wind "speed" (.num 0) with
                  | .error _ => .uncaught "AttributeError: get"
                  | .ok speed =>
                    .ok ⟨city_val, country, temp, feels_like, weather_desc,
                         humidity, speed⟩

/-- Model of `get_api_key`: `os.getenv` is `none` when the variable is
unset; `if not api_key:` also rejects the empty string. -/
def get_api_key (env : Option String) : Except WeatherErr String :=
  match env with
  | none => .error .missingApiKey
  | some k => if k == "" then .error .missingApiKey else .ok k

/-- Model of `get_weather`: reads the key from the environment; only if that
succeeds issues the HTTP request (consuming the next response from the
stream; an exhausted stream behaves as a request failure).  The returned
stream is untouched exactly when no network call was made. -/
def get_weather (env : Option String) (city : Json) (resps : List HttpResult) :
    PyResult WeatherRecord × List HttpResult :=
  match get_api_key env with
  | .error e => (.weatherError e, resps)
  | .ok _ =>
    match resps with
    | [] => (.weatherError (.network "no response"), [])
    | r :: rest => (fetch city r, rest)

/-! ## The interactive flows -/

/-- One abstract output event per `print` of the script. -/
inductive Out where
  | welcome
  | menu
  | goodbye
  | invalidChoice
  | searchCancelled
  | errorMsg (e : WeatherErr)
  | weatherReport (r : WeatherRecord)
  | capacityFull
  | addCancelled
  | alreadyFavourite (city : String)
  | added (name : Json)
  | noFavourites
  | listHeader
  | listEntry (idx : Nat) (city : Json)
  | fetchFailed (city : Json) (e : WeatherErr)
  | nothingToUpdate
  | currentFavourites (favs : List Json)
  | invalidNumber
  | outOfRange
  | removed (name : Json)
  | updateCancelled

/-- An exception the script never catches, killing the process:
`EOFError` from `input()` on exhausted input, or the uncaught exceptions
`fetch` can raise. -/
inductive Crash where
  | eof
  | uncaughtExc (msg : String)

/-- The whole observable state of a run: the favourites list (entries
are JSON values: the script appends `info["city"]` unchecked), the
pending console input lines, the pending HTTP responses, and the output
so far (most recent event first). -/
structure AppState where
  favourites : List Json
  inputs : List String
  resps : List HttpResult
  out : List Out

/-- Record one printed event. -/
def push (ev : Out) (st : AppState) : AppState :=
  { st with out := ev :: st.out }

/-- Python `in` on the favourites list, specialised to the string the
user typed: `str == x` is `True` only for an equal string. -/
def memStr (favs : List Json) (s : String) : Bool :=
  favs.any fun j => match j with
    | .str t => t == s
    | _ => false

/-- An ASCII whitespace character, as stripped by Python `str.strip()`. -/
def isSpaceChar (c : Char) : Bool :=
  c == ' ' || c == '\t' || c == '\n' || c == '\r' || c == '\x0b' || c == '\x0c'

/-- Python `s.strip()` on ASCII input: drop whitespace at both ends. -/
def pyStrip (s : String) : String :=
  String.mk (((s.toList.dropWhile isSpaceChar).reverse.dropWhile isSpaceChar).reverse)

/-- Digit run of a Python `int()` literal after the first digit: single
underscores are allowed between digits. -/
def parseDigits : List Char → Nat → Option Nat
  | [], acc => some acc
  | c :: rest, acc =>
    if c.isDigit then parseDigits rest (acc * 10 + (c.toNat - 48))
    else if c == '_' then
      match rest with
      | [] => none
      | d :: _ => if d.isDigit then parseDigits rest acc else none
    else none

/-- A nonempty digit run (must start with a digit). -/
def parseNat1 : List Char → Option Nat
  | [] => none
  | c :: rest => if c.isDigit then parseDigits rest (c.toNat - 48) else none

/-- Python `int(s)` on ASCII input: optional surrounding whitespace,
optional sign, decimal digits with grouping underscores; `none` models
the `ValueError` the update flow catches. -/
def pyInt (s : String) : Option Int :=
  match (pyStrip s).toList with
  | '+' :: rest => (parseNat1 rest).map Int.ofNat
  | '-' :: rest => (parseNat1 rest).map fun n => -(Int.ofNat n)
  | rest => (parseNat1 rest).map Int.ofNat

/-- Model of `prompt_city_name`: read a line (EOF crashes), strip it, return
`none` for an empty entry. -/
def prompt_city_name (st : AppState) : Option (Option String × AppState) :=
  match st.inputs with
  | [] => none
  | line :: rest =>
    let city := pyStrip line
    some (if city == "" then none else some city, { st with inputs := rest })

/-- Model of `search_city_flow`. -/
def search_city_flow (env : Option String) (st : AppState) :
    AppState × Option Crash :=
  match prompt_city_name st with
  | none => (st, some .eof)
  | some (none, st') => (push .searchCancelled st', none)
  | some (some city, st') =>
    let (res, resps') := get_weather env (.str city) st'.resps
    let st'' := { st' with resps := resps' }
    match res with
    | .weatherError e => (push (.errorMsg e) st'', none)
    | .uncaught m => (st'', some (.uncaughtExc m))
    | .ok info => (push (.weatherReport info) st'', none)

/-- The prompt-validate-append tail shared verbatim by `add_favourite_flow`
and `update_favourites_flow` (only the cancellation message differs):
prompt for a city, reject an exact duplicate of the typed name, validate
through `get_weather`, and append the canonical name `info["city"]`. -/
def add_city_step (cancelEv : Out) (env : Option String) (st : AppState) :
    AppState × Option Crash :=
  match prompt_city_name st with
  | none => (st, some .eof)
  | some (none, st') => (push cancelEv st', none)
  | some (some city, st') =>
    if memStr st'.favourites city then (push (.alreadyFavourite city) st', none)
    else
      let (res, resps') := get_weather env (.str city) st'.resps
      let st'' := { st' with resps := resps' }
      match res with
      | .weatherError e => (push (.errorMsg e) st'', none)
      | .uncaught m => (st'', some (.uncaughtExc m))
      | .ok info =>
        (push (.added info.city)
          { st'' with favourites := st''.favourites ++ [info.city] }, none)

/-- Model of `add_favourite_flow`: capacity check first, then the shared tail. -/
def add_favourite_flow (env : Option String) (st : AppState) :
    AppState × Option Crash :=
  if 3 ≤ st.favourites.length then (push .capacityFull st, none)
  else add_city_step .addCancelled env st

/-- The `for idx, city in enumerate(favourites, start=1)` loop of
`list_favourites_flow`: one lookup per entry, errors reported inline. -/
def list_entries (env : Option String) :
    List Json → Nat → AppState → AppState × Option Crash
  | [], _, st => (st, none)
  | city :: rest, idx, st =>
    let st₁ := push (.listEntry idx city) st
    let (res, resps') := get_weather env city st₁.resps
    let st₂ := { st₁ with resps := resps' }
    match res with
    | .ok info => list_entries env rest (idx + 1) (push (.weatherReport info) st₂)
    | .weatherError e => list_entries env rest (idx + 1) (push (.fetchFailed city e) st₂)
    | .uncaught m => (st₂, some (.uncaughtExc m))

/-- Model of `list_favourites_flow`. -/
def list_favourites_flow (env : Option String) (st : AppState) :
    AppState × Option Crash :=
  match st.favourites with
  | [] => (push .noFavourites st, none)
  | _ :: _ => list_entries env st.favourites 1 (push .listHeader st)

/-- Python `list.pop(i)` at a non-negative index: the element and the
list without it. -/
def pyPop (l : List Json) (i : Nat) : Option (Json × List Json) :=
  match l.get? i with
  | none => none
  | some a => some (a, l.eraseIdx i)

/-- Model of `update_favourites_flow`: abort on empty store; read a removal index
(`int()` failure or out-of-range aborts with the store untouched); pop
the chosen entry; then run the same replacement step as the Add flow on
the shrunken store. -/
def update_favourites_flow (env : Option String) (st : AppState) :
    AppState × Option Crash :=
  match st.favourites with
  | [] => (push .nothingToUpdate st, none)
  | _ :: _ =>
    let st := push (.currentFavourites st.favourites) st
    match st.inputs with
    | [] => (st, some .eof)
    | line :: rest =>
      let st := { st with inputs := rest }
      match pyInt (pyStrip line) with
      | none => (push .invalidNumber st, none)
      | some choice =>
        if 1 ≤ choice ∧ choice ≤ (st.favourites.length : Int) then
          match pyPop st.favourites (choice - 1).toNat with
          | none => (st, some (.uncaughtExc "IndexError: pop"))
          | some (removed_city, favs') =>
            let st := push (.removed removed_city)
              { st with favourites := favs' }
            add_city_step .updateCancelled env st
        else (push .outOfRange st, none)

/-! ## The menu loop and whole-program runs -/

/-- How a run of the program ends. -/
inductive ExitStatus where
  | exit0
  | exitCrash (c : Crash)

/-- The `while True` menu loop of `main`.  Each iteration consumes at
least one input line, so any fuel of at least `inputs.length + 1` never
runs out before a real `EOFError`; fuel exhaustion is mapped to the same
crash. -/
def main_loop (env : Option String) : Nat → AppState → AppState × ExitStatus
  | 0, st => (st, .exitCrash .eof)
  | fuel + 1, st =>
    let st := push .menu st
    match st.inputs with
    | [] => (st, .exitCrash .eof)
    | line :: rest =>
      let choice := pyStrip line
      let st := { st with inputs := rest }
      if choice == "5" then (push .goodbye st, .exit0)
      else
        let step :=
          if choice == "1" then search_city_flow env st
          else if choice == "2" then add_favourite_flow env st
          else if choice == "3" then list_favourites_flow env st
          else if choice == "4" then update_favourites_flow env st
          else (push .invalidChoice st, none)
        match step with
        | (st', some c) => (st', .exitCrash c)
        | (st', none) => main_loop env fuel st'

/-- Running `python weather_cli.py`: `main()` under the `__main__` wrapper.  The
wrapper's `except WeatherError: sys.exit(1)` clause has no counterpart
here because every flow already catches `WeatherError`, so no value of
the model can reach it. -/
def program_run (env : Option String) (inputs : List String)
    (resps : List HttpResult) : AppState × ExitStatus :=
  main_loop env (inputs.length + 1) ⟨[], inputs, resps, [.welcome]⟩

/-! ## Operation sequences over the store (for the store invariant) -/

/-- The two store-mutating menu operations. -/
inductive Op where
  | add
  | update

/-- Dispatch one store-mutating flow. -/
def applyOp (env : Option String) (st : AppState) : Op → AppState × Option Crash
  | .add => add_favourite_flow env st
  | .update => update_favourites_flow env st

/-- Run a sequence of add/update flows, stopping at the first crash
(an uncaught exception ends the process, freezing the state). -/
def runOps (env : Option String) (st : AppState) : List Op → AppState
  | [] => st
  | op :: ops =>
    match applyOp env st op with
    | (st', some _) => st'
    | (st', none) => runOps env st' ops

/-! ## Concrete fixtures shared by several checks -/

/-- A well-formed 200 response body whose canonical city name is `canon`. -/
def okBody (canon : String) : Json :=
  .obj [("name", .str canon),
        ("main", .obj [("temp", .num 1), ("feels_like", .num 2), ("humidity", .num 3)]),
        ("weather", .arr [.obj [("description", .str "clear sky")]]),
        ("wind", .obj [("speed", .num 4)]),
        ("sys", .obj [("country", .str "FR")])]

/-- A successful lookup response canonicalising to `canon`. -/
def okResp (canon : String) : HttpResult := .success 200 "" (okBody canon)

/-! ## Claims C10 and C2: the credential check -/

/-- C10: an empty-string credential is rejected exactly like an unset
one (the check is `if not api_key`, i.e. falsiness), and `get_weather`
then returns the missing-credential error without consuming any
response from the network stream. -/
theorem C10_empty_credential_like_unset :
    get_api_key (some "") = .error .missingApiKey
  ∧ get_api_key none = .error .missingApiKey
  ∧ ∀ (city : Json) (resps : List HttpResult),
      get_weather (some "") city resps = (.weatherError .missingApiKey, resps) :=
  ⟨rfl, rfl, fun _ _ => rfl⟩

/-- C2: with the credential unset, a lookup yields the missing-credential
error and leaves the response stream untouched (no network call), but the
process does not terminate with non-zero status: the flow catches the
error, prints it, and the run `1, Paris, 5` ends with a normal exit. -/
theorem C2_missing_credential_run :
    (∀ (city : Json) (resps : List HttpResult),
      get_weather none city resps = (.weatherError .missingApiKey, resps))
  ∧ program_run none ["1", "Paris", "5"] [] =
      (⟨[], [], [],
        [.goodbye, .menu, .errorMsg .missingApiKey, .menu, .welcome]⟩,
       .exit0) :=
  ⟨fun _ _ => rfl, by rfl⟩

/-! ## Claim C1: the store invariant -/

/-- C1 counterexample: the duplicate check tests the TYPED name against
the store but appends the CANONICAL name, so typing `paris` when
`Paris` is already stored (and the API canonicalises `paris` to
`Paris`) leaves two identical canonical names in the store. -/
theorem C1_counterexample :
    (runOps (some "k")
      ⟨[], ["Paris", "paris"], [okResp "Paris", okResp "Paris"], []⟩
      [.add, .add]).favourites = [Json.str "Paris", Json.str "Paris"]
  ∧ ¬ (runOps (some "k")
      ⟨[], ["Paris", "paris"], [okResp "Paris", okResp "Paris"], []⟩
      [.add, .add]).favourites.Nodup := by
  have hfav : (runOps (some "k")
      ⟨[], ["Paris", "paris"], [okResp "Paris", okResp "Paris"], []⟩
      [.add, .add]).favourites = [Json.str "Paris", Json.str "Paris"] := by rfl
  refine ⟨hfav, ?_⟩
  rw [hfav]
  simp

/-- The shared replacement step either leaves the store unchanged or
appends exactly one canonical name at the end. -/
theorem add_city_step_favourites (ev : Out) (env : Option String) (st : AppState) :
    (add_city_step ev env st).1.favourites = st.favourites
  ∨ ∃ j, (add_city_step ev env st).1.favourites = st.favourites ++ [j] := by
  obtain ⟨favs, ins, rs, os⟩ := st
  cases ins with
  | nil => left; rfl
  | cons line rest =>
    simp only [add_city_step, prompt_city_name]
    by_cases hc : (pyStrip line == "") = true
    · simp only [hc, if_pos]; left; rfl
    · simp only [hc, if_neg, Bool.false_eq_true, not_false_eq_true]
      split
      · left; rfl
      · split
        · left; rfl
        · left; rfl
        · right; exact ⟨_, rfl⟩

/-- Lemma: `add_favourite_flow` keeps the store within the capacity of 3. -/
theorem add_favourite_flow_length_le (env : Option String) (st : AppState)
    (h : st.favourites.length ≤ 3) :
    (add_favourite_flow env st).1.favourites.length ≤ 3 := by
  unfold add_favourite_flow
  split
  · simpa [push] using h
  · rename_i hcap
    rcases add_city_step_favourites .addCancelled env st with h1 | ⟨j, h1⟩
    · rw [h1]; exact h
    · rw [h1]; simp; omega

/-- A successful `pyPop` shrinks the list by exactly one. -/
theorem pyPop_length (l : List Json) (i : Nat) (a : Json) (l' : List Json)
    (h : pyPop l i = some (a, l')) : l'.length + 1 = l.length := by
  unfold pyPop at h
  cases hg : l.get? i with
  | none => rw [hg] at h; exact absurd h (by simp)
  | some b =>
    rw [hg] at h
    have hi : i < l.length := List.get?_eq_some.mp hg |>.1
    cases h
    exact List.length_eraseIdx_add_one hi

/-- Lemma: `update_favourites_flow` keeps the store within the capacity of 3. -/
theorem update_favourites_flow_length_le (env : Option String) (st : AppState)
    (h : st.favourites.length ≤ 3) :
    (update_favourites_flow env st).1.favourites.length ≤ 3 := by
  obtain ⟨favs, ins, rs, os⟩ := st
  cases favs with
  | nil => simp [update_favourites_flow, push]
  | cons f fs =>
    cases ins with
    | nil => simpa [update_favourites_flow, push] using h
    | cons line rest =>
      simp only [update_favourites_flow, push] at h ⊢
      cases hint : pyInt (pyStrip line) with
      | none => simpa using h
      | some choice =>
        simp only [hint]
        split
        · cases hpop : pyPop (f :: fs) (choice - 1).toNat with
          | none => simpa using h
          | some pr =>
            obtain ⟨a, favs'⟩ := pr
            simp only [hpop]
            have hlen := pyPop_length _ _ _ _ hpop
            rcases add_city_step_favourites .updateCancelled env
              ⟨favs', rest, rs, Out.removed a :: Out.currentFavourites (f :: fs) :: os⟩
              with h1 | ⟨j, h1⟩
            · rw [h1]; simp at h hlen ⊢; omega
            · rw [h1]; simp at h hlen ⊢; omega
        · simpa using h

/-- Any sequence of add/update flows preserves the capacity bound. -/
theorem runOps_length_le (env : Option String) (ops : List Op) (st : AppState)
    (h : st.favourites.length ≤ 3) :
    (runOps env st ops).favourites.length ≤ 3 := by
  induction ops generalizing st with
  | nil => exact h
  | cons op ops ih =>
    simp only [runOps]
    cases op with
    | add =>
      simp only [applyOp]
      cases hstep : add_favourite_flow env st with
      | mk st' c =>
        have hlen : st'.favourites.length ≤ 3 := by
          have := add_favourite_flow_length_le env st h
          rw [hstep] at this
          exact this
        cases c with
        | none => exact ih st' hlen
        | some c => exact hlen
    | update =>
      simp only [applyOp]
      cases hstep : update_favourites_flow env st with
      | mk st' c =>
        have hlen : st'.favourites.length ≤ 3 := by
          have := update_favourites_flow_length_le env st h
          rw [hstep] at this
          exact this
        cases c with
        | none => exact ih st' hlen
        | some c => exact hlen

/-- C1 (amended): for every sequence of add and update flows from the
empty store, the store never holds more than 3 entries.  (Uniqueness of
canonical names does NOT hold: only the typed spelling is checked for
duplicates, see the counterexample.) -/
theorem C1_store_never_exceeds_three (env : Option String)
    (inputs : List String) (resps : List HttpResult) (ops : List Op) :
    (runOps env ⟨[], inputs, resps, []⟩ ops).favourites.length ≤ 3 :=
  runOps_length_le env ops ⟨[], inputs, resps, []⟩ (by simp)

/-! ## Claims C3, C4, C5: the lookup result -/

/-- C3 counterexample: a 200 response whose weather list carries an
empty description string yields a successful record whose `description`
IS the empty string — the `"N/A"` fallback only fires when the list is
empty, so "description is never empty" fails. -/
theorem C3_counterexample :
    fetch (Json.str "X") (.success 200 ""
      (.obj [("main", .obj [("temp", .num 1), ("feels_like", .num 2),
                            ("humidity", .num 3)]),
             ("weather", .arr [.obj [("description", .str "")]])]))
      = PyResult.ok ⟨Json.str "X", Json.str "", Json.num 1, Json.num 2,
                     Json.str "", Json.num 3, Json.num 0⟩
  ∧ (⟨Json.str "X", Json.str "", Json.num 1, Json.num 2, Json.str "",
      Json.num 3, Json.num 0⟩ : WeatherRecord).description = Json.str "" :=
  ⟨by rfl, rfl⟩

/-- Inversion: everything that must have happened for `fetch` to return
a record. -/
theorem fetch_ok_inversion (city : Json) (s : Nat) (t : String) (b : Json)
    (r : WeatherRecord) (h : fetch city (.success s t b) = .ok r) :
    s = 200
  ∧ (∃ main, pySubscriptStr b "main" = .ok main
      ∧ pySubscriptStr main "temp" = .ok r.temp
      ∧ pySubscriptStr main "feels_like" = .ok r.feels_like
      ∧ pySubscriptStr main "humidity" = .ok r.humidity)
  ∧ weather_desc_of b = .ok r.description
  ∧ pyGet ((jget b "sys").getD (.obj [])) "country" (.str "") = .ok r.country
  ∧ pyGet ((jget b "wind").getD (.obj [])) "speed" (.num 0) = .ok r.wind_speed
  ∧ r.city = (jget b "name").getD city := by
  simp only [fetch] at h
  split at h
  · simp at h
  · rename_i h404
    split at h
    · simp at h
    · rename_i h200
      have hb : (s == 200) = true := by
        cases hsb : (s == 200) with
        | true => rfl
        | false => exact absurd (by simp [hsb]) h200
      have hs : s = 200 := by simpa using hb
      split at h
      · simp at h
      · simp at h
      · rename_i main hmain
        split at h
        · simp at h
        · simp at h
        · rename_i weather_desc hdesc
          split at h
          · simp at h
          · rename_i country hcountry
            split at h
            · simp at h
            · simp at h
            · rename_i temp htemp
              split at h
              · simp at h
              · simp at h
              · rename_i feels hfeels
                split at h
                · simp at h
                · simp at h
                · rename_i humidity hhum
                  split at h
                  · simp at h
                  · rename_i speed hspeed
                    injection h with h2
                    subst h2
                    exact ⟨hs, ⟨main, hmain, htemp, hfeels, hhum⟩,
                           hdesc, hcountry, hspeed, rfl⟩

/-- C3 (amended): on success the record is fully populated by
construction, and its `description` is exactly the `weather_desc`
computation: the literal `"N/A"` whenever the weather list is empty
(or otherwise falsy), and the API's first-entry description otherwise —
which may itself be the empty string. -/
theorem C3_description_on_success (city : Json) (s : Nat) (t : String)
    (b : Json) (r : WeatherRecord)
    (h : fetch city (.success s t b) = .ok r) :
    weather_desc_of b = .ok r.description
  ∧ (truthy ((jget b "weather").getD (.arr [])) = false →
      r.description = .str "N/A") := by
  have hdesc := (fetch_ok_inversion city s t b r h).2.2.1
  refine ⟨hdesc, fun hfalse => ?_⟩
  rw [weather_desc_of, if_neg (by simp [hfalse])] at hdesc
  injection hdesc with h3
  exact h3.symm

/-- C3 witness. -/
theorem C3_description_on_success_witness :
    weather_desc_of (okBody "Paris") =
      .ok (⟨Json.str "Paris", Json.str "FR", Json.num 1, Json.num 2,
            Json.str "clear sky", Json.num 3, Json.num 4⟩ : WeatherRecord).description :=
  (C3_description_on_success (Json.str "paris") 200 "" (okBody "Paris")
    ⟨Json.str "Paris", Json.str "FR", Json.num 1, Json.num 2,
     Json.str "clear sky", Json.num 3, Json.num 4⟩ (by rfl)).1

/-- A 200 body with only the required fields: no name, sys, weather or
wind keys. -/
def minimalBody : Json :=
  .obj [("main", .obj [("temp", .num 1), ("feels_like", .num 2),
                       ("humidity", .num 3)])]

/-- C5: whenever a record is built, `city` defaults to the API name if
present and to the requested name otherwise; `country` defaults to `""`
when `sys` is absent; `description` defaults to `"N/A"` when the
weather list is absent or empty; and `wind_speed` defaults to `0.0`
when `wind` (or its `speed` entry) is absent. -/
theorem C5_record_defaults (city : Json) (s : Nat) (t : String) (b : Json)
    (r : WeatherRecord) (h : fetch city (.success s t b) = .ok r) :
    (jget b "name" = none → r.city = city)
  ∧ (∀ v, jget b "name" = some v → r.city = v)
  ∧ (jget b "sys" = none → r.country = .str "")
  ∧ (∀ sf, jget b "sys" = some (.obj sf) → lookupField sf "country" = none →
      r.country = .str "")
  ∧ ((jget b "weather" = none ∨ jget b "weather" = some (.arr [])) →
      r.description = .str "N/A")
  ∧ (jget b "wind" = none → r.wind_speed = .num 0)
  ∧ (∀ w, jget b "wind" = some (.obj w) → lookupField w "speed" = none →
      r.wind_speed = .num 0) := by
  obtain ⟨-, -, hdesc, hcountry, hspeed, hcity⟩ := fetch_ok_inversion city s t b r h
  refine ⟨?_, ?_, ?_, ?_, ?_, ?_, ?_⟩
  · intro hname; rw [hcity, hname]; rfl
  · intro v hname; rw [hcity, hname]; rfl
  · intro hsys
    rw [hsys] at hcountry
    injection hcountry with h2
    exact h2.symm
  · intro sf hsys hfield
    rw [hsys] at hcountry
    simp only [Option.getD_some, pyGet, hfield] at hcountry
    injection hcountry with h2
    exact h2.symm
  · intro hw
    rw [weather_desc_of] at hdesc
    rcases hw with hw | hw <;>
      rw [if_neg (by simp [hw, truthy])] at hdesc <;>
      · injection hdesc with h2
        exact h2.symm
  · intro hwind
    rw [hwind] at hspeed
    injection hspeed with h2
    exact h2.symm
  · intro w hwind hfield
    rw [hwind] at hspeed
    simp only [Option.getD_some, pyGet, hfield] at hspeed
    injection hspeed with h2
    exact h2.symm

/-- A 200 body whose `sys` object is present but has no `country` key. -/
def sysNoCountryBody : Json :=
  .obj [("main", .obj [("temp", .num 1), ("feels_like", .num 2),
                       ("humidity", .num 3)]),
        ("sys", .obj [("population", .num 7)])]

/-- C5 witness: on a body with only the required fields all the
absent-key defaults fire, and on a body whose `sys` object lacks the
`country` key the empty-country default fires as well. -/
theorem C5_record_defaults_witness :
    (⟨Json.str "Q", Json.str "", Json.num 1, Json.num 2, Json.str "N/A",
      Json.num 3, Json.num 0⟩ : WeatherRecord).city = Json.str "Q"
  ∧ (⟨Json.str "Q", Json.str "", Json.num 1, Json.num 2, Json.str "N/A",
      Json.num 3, Json.num 0⟩ : WeatherRecord).country = Json.str ""
  ∧ (⟨Json.str "R", Json.str "", Json.num 1, Json.num 2, Json.str "N/A",
      Json.num 3, Json.num 0⟩ : WeatherRecord).country = Json.str "" := by
  have hC5 := C5_record_defaults (Json.str "Q") 200 "" minimalBody
    ⟨Json.str "Q", Json.str "", Json.num 1, Json.num 2, Json.str "N/A",
     Json.num 3, Json.num 0⟩ (by rfl)
  have hC5' := C5_record_defaults (Json.str "R") 200 "" sysNoCountryBody
    ⟨Json.str "R", Json.str "", Json.num 1, Json.num 2, Json.str "N/A",
     Json.num 3, Json.num 0⟩ (by rfl)
  exact ⟨hC5.1 rfl, hC5.2.2.1 rfl,
         hC5'.2.2.2.1 [("population", Json.num 7)] rfl rfl⟩

/-- A 200 response body is "missing required fields" when `data["main"]`
or one of `main["temp"]`, `main["feels_like"]`, `main["humidity"]` would
not yield a value. -/
def subsOk (e : Except SubsErr Json) : Bool :=
  match e with
  | .ok _ => true
  | .error _ => false

/-- Required-field check of the spec, over the raw body. -/
def required_missing (b : Json) : Bool :=
  match pySubscriptStr b "main" with
  | .error _ => true
  | .ok main =>
    !(subsOk (pySubscriptStr main "temp")
      && subsOk (pySubscriptStr main "feels_like")
      && subsOk (pySubscriptStr main "humidity"))

/-- The `sys` entry, when present, is a JSON object (so `sys.get` cannot
raise `AttributeError`). -/
def sysOk (b : Json) : Bool :=
  match jget b "sys" with
  | none => true
  | some (.obj _) => true
  | some _ => false

/-- The `wind` entry, when present, is a JSON object. -/
def windOk (b : Json) : Bool :=
  match jget b "wind" with
  | none => true
  | some (.obj _) => true
  | some _ => false

/-- Did the lookup end in the malformed-response error? -/
def isMalformed (res : PyResult WeatherRecord) : Bool :=
  match res with
  | .weatherError (.malformed _) => true
  | _ => false

/-- A string subscript never raises `IndexError`. -/
theorem pySubscriptStr_ne_indexError (j : Json) (key : String) :
    pySubscriptStr j key ≠ .error .indexError := by
  cases j <;> simp [pySubscriptStr]
  rename_i fields
  cases lookupField fields key <;> simp

/-- On a truthy value, `x[0]` never raises `IndexError` (the only
`IndexError` sources, the empty list and the empty string, are falsy). -/
theorem pyIndex0_ne_indexError (j : Json) (hj : truthy j = true) :
    pyIndex0 j ≠ .error .indexError := by
  cases j with
  | null => simp [truthy] at hj
  | bool b => simp [pyIndex0]
  | num q => simp [pyIndex0]
  | str s =>
    simp only [truthy, Bool.not_eq_true', beq_eq_false_iff_ne, ne_eq] at hj
    cases hs : s.data with
    | nil =>
      exact absurd (by cases s with | mk l => simp at hs; simp [hs]) hj
    | cons c rest => simp [pyIndex0, String.toList, hs]
  | arr l =>
    cases l with
    | nil => simp [truthy] at hj
    | cons x xs => simp [pyIndex0]
  | obj fields => simp [pyIndex0]

/-- The `weather_desc` computation never raises `IndexError`. -/
theorem weather_desc_of_ne_indexError (b : Json) :
    weather_desc_of b ≠ .error .indexError := by
  rw [weather_desc_of]
  split
  · rename_i htruthy
    cases hix : pyIndex0 ((jget b "weather").getD (.arr [])) with
    | error e =>
      cases e with
      | indexError => exact absurd hix (pyIndex0_ne_indexError _ htruthy)
      | keyError k => simp [hix]
      | typeError => simp [hix]
    | ok e0 => simp [hix, pySubscriptStr_ne_indexError]
  · simp

/-- C4 counterexample: a 200 body missing `main.temp` whose `sys` entry
is a non-object does NOT yield the malformed-response error — the
`sys_info.get` attribute access raises before `main["temp"]` is
evaluated, and that exception is not caught by the script at all. -/
theorem C4_counterexample :
    fetch (Json.str "X")
      (.success 200 "" (.obj [("main", .obj []), ("sys", .num 5)]))
      = PyResult.uncaught "AttributeError: get"
  ∧ required_missing (.obj [("main", .obj []), ("sys", .num 5)]) = true :=
  ⟨by rfl, by rfl⟩

/-- C4 (amended): lookup classifies in this order: network failure →
`Network` with the cause; 404 → `CityNotFound` with the requested name;
other non-200 → `ApiStatus` with status and body; a 200 body missing a
required field → `MalformedResponse`, PROVIDED the body's `sys` and
`wind` entries, when present, are objects (otherwise an uncaught
`AttributeError` escapes instead); and a record is built only when the
status is 200 and no required field is missing. -/
theorem C4_classification (city : Json) (cause t : String) (s : Nat) (b : Json) :
    fetch city (.failure cause) = .weatherError (.network cause)
  ∧ fetch city (.success 404 t b) = .weatherError (.cityNotFound city)
  ∧ (s ≠ 404 → s ≠ 200 → fetch city (.success s t b) = .weatherError (.apiStatus s t))
  ∧ (required_missing b = true → sysOk b = true → windOk b = true →
      isMalformed (fetch city (.success 200 t b)) = true)
  ∧ (∀ r, fetch city (.success s t b) = .ok r →
      s = 200 ∧ required_missing b = false) := by
  refine ⟨rfl, rfl, ?_, ?_, ?_⟩
  · intro h404 h200
    rw [fetch, if_neg (by simp [h404]), if_pos (by simp [h200])]
  · intro hmiss hsys hwind
    rw [fetch, if_neg (by decide), if_neg (by decide)]
    cases hmain : pySubscriptStr b "main" with
    | error e =>
      cases e with
      | indexError => exact absurd hmain (pySubscriptStr_ne_indexError b "main")
      | keyError k => simp [hmain, isMalformed]
      | typeError => simp [hmain, isMalformed]
    | ok main =>
      simp only [hmain]
      cases hdesc : weather_desc_of b with
      | error e =>
        cases e with
        | indexError => exact absurd hdesc (weather_desc_of_ne_indexError b)
        | keyError k => simp [hdesc, isMalformed]
        | typeError => simp [hdesc, isMalformed]
      | ok weather_desc =>
        simp only [hdesc]
        have hsys' : ∃ fields, (jget b "sys").getD (.obj []) = .obj fields := by
          rw [sysOk] at hsys
          cases hjs : jget b "sys" with
          | none => exact ⟨[], rfl⟩
          | some v =>
            rw [hjs] at hsys
            cases v <;> simp at hsys ⊢
        obtain ⟨sfields, hsf⟩ := hsys'
        rw [hsf]
        simp only [pyGet]
        simp only [required_missing, hmain] at hmiss
        cases htemp : pySubscriptStr main "temp" with
        | error e =>
          cases e with
          | indexError => exact absurd htemp (pySubscriptStr_ne_indexError main "temp")
          | keyError k => simp [htemp, isMalformed]
          | typeError => simp [htemp, isMalformed]
        | ok temp =>
          simp only [htemp]
          cases hfeels : pySubscriptStr main "feels_like" with
          | error e =>
            cases e with
            | indexError =>
              exact absurd hfeels (pySubscriptStr_ne_indexError main "feels_like")
            | keyError k => simp [hfeels, isMalformed]
            | typeError => simp [hfeels, isMalformed]
          | ok feels =>
            simp only [hfeels]
            cases hhum : pySubscriptStr main "humidity" with
            | error e =>
              cases e with
              | indexError =>
                exact absurd hhum (pySubscriptStr_ne_indexError main "humidity")
              | keyError k => simp [hhum, isMalformed]
              | typeError => simp [hhum, isMalformed]
            | ok humidity =>
              simp [htemp, hfeels, hhum, subsOk] at hmiss
  · intro r h
    obtain ⟨hs, ⟨main, hmain, htemp, hfeels, hhum⟩, -⟩ :=
      fetch_ok_inversion city s t b r h
    refine ⟨hs, ?_⟩
    simp [required_missing, hmain, htemp, hfeels, hhum, subsOk]

/-- C4 witness: the non-200, malformed (missing `main`) and
record-built cases each fire at a concrete response. -/
theorem C4_classification_witness :
    fetch (Json.str "W") (.success 500 "boom" (Json.obj []))
      = .weatherError (.apiStatus 500 "boom")
  ∧ isMalformed (fetch (Json.str "W") (.success 200 "boom" (Json.obj []))) = true
  ∧ required_missing (okBody "P") = false := by
  refine ⟨(C4_classification (Json.str "W") "c" "boom" 500 (Json.obj [])).2.2.1
            (by decide) (by decide),
          (C4_classification (Json.str "W") "c" "boom" 500 (Json.obj [])).2.2.2.1
            (by rfl) (by rfl) (by rfl),
          ((C4_classification (Json.str "P") "c" "" 200 (okBody "P")).2.2.2.2
            ⟨Json.str "P", Json.str "FR", Json.num 1, Json.num 2,
             Json.str "clear sky", Json.num 3, Json.num 4⟩ (by rfl)).2⟩

/-! ## Claims C8, C7, C6: the update flow -/

/-- C8: for a valid 1-based position into a store, the pop used by the
update flow returns exactly the element at that position, the remaining
entries in their previous relative order, and a store shorter by one. -/
theorem C8_remove_at_valid_position (l : List Json) (pos : Nat)
    (h1 : 1 ≤ pos) (h2 : pos ≤ l.length) :
    ∃ a, l.get? (pos - 1) = some a
      ∧ pyPop l (pos - 1) = some (a, l.take (pos - 1) ++ l.drop pos)
      ∧ (l.take (pos - 1) ++ l.drop pos).length + 1 = l.length := by
  have hlt : pos - 1 < l.length := by omega
  have hget : l.get? (pos - 1) = some (l.get ⟨pos - 1, hlt⟩) := List.get?_eq_get hlt
  refine ⟨l.get ⟨pos - 1, hlt⟩, hget, ?_, ?_⟩
  · rw [pyPop, hget]
    have hpp : pos - 1 + 1 = pos := by omega
    rw [List.eraseIdx_eq_take_drop_succ, hpp]
  · simp only [List.length_append, List.length_take, List.length_drop]
    omega

/-- C8 witness: removing position 2 from a 3-entry store. -/
theorem C8_remove_at_witness :
    ∃ a, [Json.str "Paris", Json.str "Tokyo", Json.str "Lagos"].get? 1 = some a
      ∧ pyPop [Json.str "Paris", Json.str "Tokyo", Json.str "Lagos"] 1 =
          some (a, [Json.str "Paris", Json.str "Tokyo", Json.str "Lagos"].take 1
                    ++ [Json.str "Paris", Json.str "Tokyo", Json.str "Lagos"].drop 2)
      ∧ ([Json.str "Paris", Json.str "Tokyo", Json.str "Lagos"].take 1
          ++ [Json.str "Paris", Json.str "Tokyo", Json.str "Lagos"].drop 2).length + 1
          = [Json.str "Paris", Json.str "Tokyo", Json.str "Lagos"].length :=
  C8_remove_at_valid_position _ 2 (by decide) (by decide)

/-- If the replacement prompt is cancelled (empty entry), the typed name
is already present, or the validating lookup raises a `WeatherError`,
the replacement step leaves the store exactly as it found it and does
not crash. -/
theorem add_city_step_fail (ev : Out) (env : Option String) (favs' : List Json)
    (i2 : String) (rest : List String) (rs : List HttpResult) (os' : List Out)
    (hfail : pyStrip i2 = ""
      ∨ memStr favs' (pyStrip i2) = true
      ∨ ∃ e rs', get_weather env (.str (pyStrip i2)) rs = (.weatherError e, rs')) :
    (add_city_step ev env ⟨favs', i2 :: rest, rs, os'⟩).1.favourites = favs'
  ∧ (add_city_step ev env ⟨favs', i2 :: rest, rs, os'⟩).2 = none := by
  simp only [add_city_step, prompt_city_name]
  by_cases hc : (pyStrip i2 == "") = true
  · simp only [hc, if_pos]
    exact ⟨rfl, trivial⟩
  · simp only [hc, Bool.false_eq_true, if_neg, not_false_eq_true]
    by_cases hm : memStr favs' (pyStrip i2) = true
    · simp only [hm, if_pos]
      exact ⟨rfl, trivial⟩
    · simp only [hm, Bool.false_eq_true, if_neg, not_false_eq_true]
      rcases hfail with hfail | hfail | ⟨e, rs', hgw⟩
      · exact absurd (by simp [hfail]) hc
      · exact absurd hfail hm
      · rw [hgw]
        exact ⟨rfl, rfl⟩

/-- C6: in the update flow, when the removal succeeds (valid index) and
the replacement step then fails or is cancelled — empty entry, typed
duplicate, or lookup error — the removal is not rolled back: the flow
ends cleanly with exactly one entry fewer than before. -/
theorem C6_no_rollback_on_failed_replacement (env : Option String)
    (favs : List Json) (i1 i2 : String) (rest : List String)
    (rs : List HttpResult) (os : List Out) (choice : Int)
    (hint : pyInt (pyStrip i1) = some choice)
    (hrange : 1 ≤ choice ∧ choice ≤ (favs.length : Int))
    (hfail : pyStrip i2 = ""
      ∨ memStr (favs.eraseIdx (choice - 1).toNat) (pyStrip i2) = true
      ∨ ∃ e rs', get_weather env (.str (pyStrip i2)) rs = (.weatherError e, rs')) :
    (update_favourites_flow env ⟨favs, i1 :: i2 :: rest, rs, os⟩).1.favourites.length + 1
      = favs.length
  ∧ (update_favourites_flow env ⟨favs, i1 :: i2 :: rest, rs, os⟩).2 = none := by
  cases favs with
  | nil => simp at hrange; omega
  | cons f fs =>
    simp only [update_favourites_flow, push, hint]
    rw [if_pos hrange]
    have hlt : (choice - 1).toNat < (f :: fs).length := by
      simp at hrange ⊢
      omega
    have hget : (f :: fs).get? (choice - 1).toNat =
        some ((f :: fs).get ⟨(choice - 1).toNat, hlt⟩) := List.get?_eq_get hlt
    rw [pyPop, hget]
    have hstep := add_city_step_fail .updateCancelled env
      ((f :: fs).eraseIdx (choice - 1).toNat) i2 rest rs
      (Out.removed ((f :: fs).get ⟨(choice - 1).toNat, hlt⟩)
        :: Out.currentFavourites (f :: fs) :: os) hfail
    refine ⟨?_, hstep.2⟩
    rw [hstep.1]
    exact List.length_eraseIdx_add_one hlt

/-- C6 witness: remove entry 1 of 2, then cancel the replacement. -/
theorem C6_no_rollback_witness :
    (update_favourites_flow (some "k")
      ⟨[Json.str "Paris", Json.str "Tokyo"], ["1", ""], [], []⟩).1.favourites.length + 1
      = [Json.str "Paris", Json.str "Tokyo"].length
  ∧ (update_favourites_flow (some "k")
      ⟨[Json.str "Paris", Json.str "Tokyo"], ["1", ""], [], []⟩).2 = none :=
  C6_no_rollback_on_failed_replacement (some "k")
    [Json.str "Paris", Json.str "Tokyo"] "1" "" [] [] [] 1
    (by rfl) (by constructor <;> decide) (Or.inl (by rfl))

/-- C7: with a non-empty store, a non-numeric removal entry or an
out-of-range index aborts the whole update flow: an error is reported,
nothing is removed, and the store is exactly unchanged. -/
theorem C7_bad_index_aborts_update (env : Option String) (f : Json)
    (fs : List Json) (line : String) (rest : List String)
    (rs : List HttpResult) (os : List Out)
    (hbad : pyInt (pyStrip line) = none
      ∨ ∃ c, pyInt (pyStrip line) = some c
          ∧ ¬(1 ≤ c ∧ c ≤ ((f :: fs).length : Int))) :
    (update_favourites_flow env ⟨f :: fs, line :: rest, rs, os⟩).1.favourites = f :: fs
  ∧ (update_favourites_flow env ⟨f :: fs, line :: rest, rs, os⟩).2 = none
  ∧ ((update_favourites_flow env ⟨f :: fs, line :: rest, rs, os⟩).1.out.head?
        = some Out.invalidNumber
    ∨ (update_favourites_flow env ⟨f :: fs, line :: rest, rs, os⟩).1.out.head?
        = some Out.outOfRange) := by
  rcases hbad with hbad | ⟨c, hc, hcrange⟩
  · simp only [update_favourites_flow, push, hbad]
    exact ⟨by trivial, by trivial, Or.inl (by trivial)⟩
  · simp only [update_favourites_flow, push, hc]
    rw [if_neg hcrange]
    exact ⟨by trivial, by trivial, Or.inr (by trivial)⟩

/-- C7 witness: non-numeric entry on a single-entry store. -/
theorem C7_bad_index_witness :
    (update_favourites_flow (some "k")
      ⟨[Json.str "Oslo"], ["x"], [], []⟩).1.favourites = [Json.str "Oslo"]
  ∧ (update_favourites_flow (some "k")
      ⟨[Json.str "Oslo"], ["x"], [], []⟩).2 = none
  ∧ ((update_favourites_flow (some "k")
      ⟨[Json.str "Oslo"], ["x"], [], []⟩).1.out.head? = some Out.invalidNumber
    ∨ (update_favourites_flow (some "k")
      ⟨[Json.str "Oslo"], ["x"], [], []⟩).1.out.head? = some Out.outOfRange) :=
  C7_bad_index_aborts_update (some "k") (Json.str "Oslo") [] "x" [] [] []
    (Or.inl (by rfl))

/-! ## Claim C9: the list flow -/

/-- Is this the per-entry header line `[idx] city`? -/
def isEntryEvent (o : Out) : Bool :=
  match o with
  | .listEntry _ _ => true
  | _ => false

/-- Is this a per-entry outcome: a rendered report or an inline error? -/
def isRenderEvent (o : Out) : Bool :=
  match o with
  | .weatherReport _ => true
  | .fetchFailed _ _ => true
  | _ => false

/-- Number of per-entry header lines printed so far. -/
def countEntries (l : List Out) : Nat := l.countP isEntryEvent

/-- Number of per-entry outcomes (reports or inline errors) printed. -/
def countRendered (l : List Out) : Nat := l.countP isRenderEvent

/-- The per-entry loop of the list flow: provided no response in the
stream makes `fetch` raise an uncaught exception, it visits every city,
prints one header and one outcome for each, never crashes, and never
touches the favourites list. -/
theorem list_entries_spec (env : Option String) (cities : List Json)
    (idx : Nat) (st : AppState)
    (hsafe : ∀ (c : Json) (r : HttpResult), r ∈ st.resps →
      ∀ m, fetch c r ≠ .uncaught m) :
    (list_entries env cities idx st).1.favourites = st.favourites
  ∧ (list_entries env cities idx st).2 = none
  ∧ countEntries (list_entries env cities idx st).1.out
      = cities.length + countEntries st.out
  ∧ countRendered (list_entries env cities idx st).1.out
      = cities.length + countRendered st.out := by
  induction cities generalizing idx st with
  | nil =>
    refine ⟨rfl, rfl, by simp [list_entries], by simp [list_entries]⟩
  | cons city rest ih =>
    simp only [list_entries, push, get_weather]
    cases hk : get_api_key env with
    | error e =>
      simp only []
      have := ih (idx + 1)
        ⟨st.favourites, st.inputs, st.resps,
          Out.fetchFailed city e :: Out.listEntry idx city :: st.out⟩ hsafe
      obtain ⟨h1, h2, h3, h4⟩ := this
      refine ⟨h1, h2, ?_, ?_⟩
      · rw [h3]
        simp [countEntries, List.countP_cons, isEntryEvent, isRenderEvent]
        omega
      · rw [h4]
        simp [countRendered, List.countP_cons, isEntryEvent, isRenderEvent]
        omega
    | ok key =>
      simp only []
      cases hr : st.resps with
      | nil =>
        simp only []
        have := ih (idx + 1)
          ⟨st.favourites, st.inputs, [],
            Out.fetchFailed city (.network "no response")
              :: Out.listEntry idx city :: st.out⟩
          (by intro c r hrr m; exact absurd hrr (List.not_mem_nil r))
        obtain ⟨h1, h2, h3, h4⟩ := this
        refine ⟨h1, h2, ?_, ?_⟩
        · rw [h3]
          simp [countEntries, List.countP_cons, isEntryEvent, isRenderEvent]
          omega
        · rw [h4]
          simp [countRendered, List.countP_cons, isEntryEvent, isRenderEvent]
          omega
      | cons r rrest =>
        simp only []
        have hsafe' : ∀ (c : Json) (r' : HttpResult), r' ∈ rrest →
            ∀ m, fetch c r' ≠ .uncaught m := by
          intro c r' hrr m
          exact hsafe c r' (by rw [hr]; exact List.mem_cons_of_mem r hrr) m
        cases hfr : fetch city r with
        | ok info =>
          simp only [hfr]
          have := ih (idx + 1)
            ⟨st.favourites, st.inputs, rrest,
              Out.weatherReport info :: Out.listEntry idx city :: st.out⟩ hsafe'
          obtain ⟨h1, h2, h3, h4⟩ := this
          refine ⟨h1, h2, ?_, ?_⟩
          · rw [h3]
            simp [countEntries, List.countP_cons, isEntryEvent, isRenderEvent]
            omega
          · rw [h4]
            simp [countRendered, List.countP_cons, isEntryEvent, isRenderEvent]
            omega
        | weatherError e =>
          simp only [hfr]
          have := ih (idx + 1)
            ⟨st.favourites, st.inputs, rrest,
              Out.fetchFailed city e :: Out.listEntry idx city :: st.out⟩ hsafe'
          obtain ⟨h1, h2, h3, h4⟩ := this
          refine ⟨h1, h2, ?_, ?_⟩
          · rw [h3]
            simp [countEntries, List.countP_cons, isEntryEvent, isRenderEvent]
            omega
          · rw [h4]
            simp [countRendered, List.countP_cons, isEntryEvent, isRenderEvent]
            omega
        | uncaught m =>
          exact absurd hfr (hsafe city r (by rw [hr]; exact List.mem_cons_self r rrest) m)

/-- C9: over a non-empty store, provided no response makes `fetch`
raise an uncaught exception, the list flow looks up and reports every
stored entry (one header and one report-or-inline-error each), earlier
per-entry failures never abort the remaining entries, the flow never
crashes, and the store itself is unchanged. -/
theorem C9_list_flow_isolates_failures (env : Option String) (f : Json)
    (fs : List Json) (ins : List String) (rs : List HttpResult) (os : List Out)
    (hsafe : ∀ (c : Json) (r : HttpResult), r ∈ rs →
      ∀ m, fetch c r ≠ .uncaught m) :
    (list_favourites_flow env ⟨f :: fs, ins, rs, os⟩).1.favourites = f :: fs
  ∧ (list_favourites_flow env ⟨f :: fs, ins, rs, os⟩).2 = none
  ∧ countEntries (list_favourites_flow env ⟨f :: fs, ins, rs, os⟩).1.out
      = (f :: fs).length + countEntries os
  ∧ countRendered (list_favourites_flow env ⟨f :: fs, ins, rs, os⟩).1.out
      = (f :: fs).length + countRendered os := by
  have hspec := list_entries_spec env (f :: fs) 1
    ⟨f :: fs, ins, rs, Out.listHeader :: os⟩ hsafe
  obtain ⟨h1, h2, h3, h4⟩ := hspec
  simp only [list_favourites_flow, push]
  refine ⟨h1, h2, ?_, ?_⟩
  · rw [h3]
    simp [countEntries, List.countP_cons, isEntryEvent]
  · rw [h4]
    simp [countRendered, List.countP_cons, isRenderEvent]

/-- C9 witness: two favourites, no credential: both lookups fail with
the missing-key error, both are reported inline, the store survives. -/
theorem C9_list_flow_witness :
    (list_favourites_flow none ⟨[Json.str "A", Json.str "B"], [], [], []⟩).1.favourites
      = [Json.str "A", Json.str "B"]
  ∧ (list_favourites_flow none ⟨[Json.str "A", Json.str "B"], [], [], []⟩).2 = none
  ∧ countEntries (list_favourites_flow none
      ⟨[Json.str "A", Json.str "B"], [], [], []⟩).1.out
      = [Json.str "A", Json.str "B"].length + countEntries []
  ∧ countRendered (list_favourites_flow none
      ⟨[Json.str "A", Json.str "B"], [], [], []⟩).1.out
      = [Json.str "A", Json.str "B"].length + countRendered [] :=
  C9_list_flow_isolates_failures none (Json.str "A") [Json.str "B"] [] [] []
    (by intro c r hmem m; exact absurd hmem (List.not_mem_nil r))
